import Mathlib

/-!
Verification of `sentence_transformers/evaluation/MSEEvaluator.py`.

The Python class `MSEEvaluator` caches, at construction time, the teacher
model's embeddings of a fixed list of source sentences; each call then
encodes the target sentences with the model under evaluation, computes
`mse = 100 * ((source_embeddings - target_embeddings) ** 2).mean()` with
numpy, optionally appends a row to a CSV file, and returns the metric
mapping `{"negative_mse": -mse}` (name-prefixed when the evaluator has a
non-empty name).

The embedding below represents embeddings as rational matrices
(`List (List ℚ)`), encoders as functions from an active truncation
dimension and a sentence list to such a matrix, the filesystem as an
association list from paths to CSV row lists, and fallible operations
(numpy shape errors, the `None` teacher) as `Option`.
-/

/-- An embedding model, as the evaluator sees it: `encode` is called inside
a truncation context (`nullcontext()` when `truncate_dim is None`, else
`truncate_sentence_embeddings(truncate_dim)`), so it receives the active
truncation dimension together with the sentences, and returns a matrix
whose rows are the sentence embeddings (`convert_to_numpy=True`). -/
structure EncModel where
  encode : Option Nat → List String → List (List ℚ)

/-- Number of rows of a numpy 2-D array represented as a list of rows. -/
def npRows (A : List (List ℚ)) : Nat := A.length

/-- Number of columns of a numpy 2-D array: the length of its first row
(0 for an empty array). -/
def npCols (A : List (List ℚ)) : Nat := (A.head?.getD []).length

/-- numpy broadcasting compatibility of two sizes along one axis: the sizes
agree, or one of them is 1. -/
def broadcastCompat (a b : Nat) : Prop := a = b ∨ a = 1 ∨ b = 1

instance (a b : Nat) : Decidable (broadcastCompat a b) := by
  unfold broadcastCompat; infer_instance

/-- Broadcast-aware element access: an axis of size 1 always yields its
single entry (index 0), any other axis is indexed directly. -/
def npGet (A : List (List ℚ)) (i j : Nat) : ℚ :=
  (A.getD (if npRows A = 1 then 0 else i) []).getD (if npCols A = 1 then 0 else j) 0

/-- numpy element-wise subtraction of two 2-D arrays, with broadcasting:
`none` models the shape-mismatch `ValueError` numpy raises when the shapes
are not broadcast-compatible. -/
def npSub (A B : List (List ℚ)) : Option (List (List ℚ)) :=
  if broadcastCompat (npRows A) (npRows B) ∧ broadcastCompat (npCols A) (npCols B) then
    some ((List.range (max (npRows A) (npRows B))).map (fun i =>
      (List.range (max (npCols A) (npCols B))).map (fun j => npGet A i j - npGet B i j)))
  else none

/-- numpy element-wise `** 2`. -/
def npSquare (A : List (List ℚ)) : List (List ℚ) :=
  A.map (fun row => row.map (fun x => x ^ 2))

/-- numpy `.mean()` over all elements of a 2-D array: the total sum divided
by the total element count (rows times columns). -/
def npMean (A : List (List ℚ)) : ℚ :=
  (A.map List.sum).sum / ((npRows A : ℚ) * (npCols A : ℚ))

/-- A cell of a CSV row, as written by `csv.writer.writerow`: the header
cells are strings, the data cells are the integers `epoch` and `steps` and
the numeric `mse`. -/
inductive Cell where
  | str (s : String)
  | int (i : Int)
  | num (q : ℚ)
deriving DecidableEq, Repr

/-- A CSV row is a list of cells. -/
abbrev Row := List Cell

/-- The filesystem fragment the evaluator touches: an association list from
paths to CSV file contents (lists of rows); a missing key is a file that
does not exist. -/
abbrev FS := List (String × List Row)

/-- `os.path.join` for the one relative-component case the evaluator uses. -/
def os_path_join (a b : String) : String := a ++ "/" ++ b

/-- Modelled from the spec: `SentenceEvaluator.prefix_name_to_metrics` is
declared on the base class, which is not under `src/`. Per the spec, "the
metric name is optionally prefixed with a configured label for
disambiguation" — when the evaluator's name is non-empty each metric key is
prefixed with that name; an empty name leaves the mapping unchanged. -/
def prefixNameToMetrics (metrics : List (String × ℚ)) (name : String) : List (String × ℚ) :=
  if name = "" then metrics else metrics.map (fun kv => (name ++ "_" ++ kv.1, kv.2))

/-- The state of a constructed `MSEEvaluator`: every field `self.x`
assigned by `__init__`. -/
structure MSEEvaluator where
  source_embeddings : List (List ℚ)
  target_sentences : List String
  show_progress_bar : Bool
  batch_size : Nat
  name : String
  csv_file : String
  csv_headers : List String
  write_csv : Bool
  truncate_dim : Option Nat
  primary_metric : String
deriving DecidableEq

/-- `MSEEvaluator.__init__`: the teacher parameter defaults to `None`
(here `Option EncModel`); the constructor unconditionally calls
`teacher_model.encode` (inside the truncation context when `truncate_dim`
is set), so a `none` teacher raises (`none` result) before any evaluator
state exists. Otherwise the source embeddings are computed once and every
field is stored. -/
def MSEEvaluator.init (source_sentences target_sentences : List String)
    (teacher_model : Option EncModel) (show_progress_bar : Bool) (batch_size : Nat)
    (name : String) (write_csv : Bool) (truncate_dim : Option Nat) :
    Option MSEEvaluator :=
  match teacher_model with
  | none => none
  | some t =>
    some
      { source_embeddings := t.encode truncate_dim source_sentences
        target_sentences := target_sentences
        show_progress_bar := show_progress_bar
        batch_size := batch_size
        name := name
        csv_file := "mse_evaluation_" ++ name ++ "_results.csv"
        csv_headers := ["epoch", "steps", "MSE"]
        write_csv := write_csv
        truncate_dim := truncate_dim
        primary_metric := "negative_mse" }

/-- The target embeddings computed inside `__call__`: the evaluated model's
`encode` of the stored target sentences, inside the same truncation context
as the constructor used (`self.truncate_dim`). -/
def MSEEvaluator.targetEmbeddings (self : MSEEvaluator) (model : EncModel) : List (List ℚ) :=
  model.encode self.truncate_dim self.target_sentences

/-- `mse = ((self.source_embeddings - target_embeddings) ** 2).mean()`
followed by `mse *= 100`; `none` when the numpy subtraction raises a shape
mismatch. -/
def MSEEvaluator.mseValue (self : MSEEvaluator) (model : EncModel) : Option ℚ :=
  (npSub self.source_embeddings (self.targetEmbeddings model)).map
    (fun diff => npMean (npSquare diff) * 100)

/-- The CSV block of `__call__`: only when `output_path is not None and
self.write_csv`, open `<output_path>/<self.csv_file>`; if the file does not
yet exist write the header row first (mode "w"), otherwise append
(mode "a"); then write the single data row `[epoch, steps, mse]`. -/
def MSEEvaluator.writeCsvStep (self : MSEEvaluator) (output_path : Option String)
    (fs : FS) (epoch steps : Int) (mse : ℚ) : FS :=
  match output_path with
  | none => fs
  | some p =>
    if self.write_csv then
      let csv_path := os_path_join p self.csv_file
      let dataRow : Row := [Cell.int epoch, Cell.int steps, Cell.num mse]
      match List.lookup csv_path fs with
      | some content => (csv_path, content ++ [dataRow]) :: fs
      | none => (csv_path, [self.csv_headers.map Cell.str, dataRow]) :: fs
    else fs

/-- `MSEEvaluator.__call__`: encode the targets, compute the (scaled) MSE,
perform the CSV side effect, and return the metric mapping
`{"negative_mse": -mse}` run through the name-prefixing helper, together
with the (unmodified) evaluator state and the updated filesystem. The
`store_metrics_in_model_card_data` call only records the metrics in the
model's card data and is outside the claims' scope. `none` models the
propagated numpy shape-mismatch error. -/
def MSEEvaluator.call (self : MSEEvaluator) (model : EncModel) (output_path : Option String)
    (fs : FS) (epoch steps : Int) :
    Option (List (String × ℚ) × MSEEvaluator × FS) :=
  (self.mseValue model).map (fun mse =>
    let fs' := self.writeCsvStep output_path fs epoch steps mse
    let metrics := prefixNameToMetrics [("negative_mse", -mse)] self.name
    (metrics, self, fs'))

/-- Spec-side formula for the metric: `100 * mean((A - B)^2)` written
directly as the mean over element-wise squared differences of two matrices
of identical shape, with no broadcasting machinery. -/
def specMSE (A B : List (List ℚ)) : ℚ :=
  100 * (((A.zip B).map (fun rp => ((rp.1.zip rp.2).map (fun q => (q.1 - q.2) ^ 2)).sum)).sum /
    ((A.length : ℚ) * ((A.head?.getD []).length : ℚ)))

/-- Running a sequence of `__call__` invocations, threading the evaluator
state and the filesystem; each list entry supplies the model, output path,
epoch and steps of one call. -/
def runCalls (state : MSEEvaluator × FS) :
    List (EncModel × Option String × Int × Int) → Option (MSEEvaluator × FS)
  | [] => some state
  | (m, op, e, s) :: rest =>
    (state.1.call m op state.2 e s).bind (fun out => runCalls (out.2.1, out.2.2) rest)

lemma call_eq_of_mseValue (self : MSEEvaluator) (m : EncModel) (op : Option String)
    (fs : FS) (e s : Int) (mse : ℚ) (h : self.mseValue m = some mse) :
    self.call m op fs e s =
      some (prefixNameToMetrics [("negative_mse", -mse)] self.name, self,
        self.writeCsvStep op fs e s mse) := by
  simp [MSEEvaluator.call, h]

lemma call_some_elim (self : MSEEvaluator) (m : EncModel) (op : Option String)
    (fs : FS) (e s : Int) (out) (h : self.call m op fs e s = some out) :
    ∃ mse, self.mseValue m = some mse ∧
      out = (prefixNameToMetrics [("negative_mse", -mse)] self.name, self,
        self.writeCsvStep op fs e s mse) := by
  rcases hm : self.mseValue m with _ | mse
  · rw [MSEEvaluator.call, hm] at h; cases h
  · refine ⟨mse, rfl, ?_⟩
    rw [call_eq_of_mseValue self m op fs e s mse hm] at h
    exact (Option.some.inj h).symm

lemma call_state_eq (self : MSEEvaluator) (m : EncModel) (op : Option String)
    (fs : FS) (e s : Int) (out) (h : self.call m op fs e s = some out) :
    out.2.1 = self := by
  obtain ⟨mse, _, rfl⟩ := call_some_elim self m op fs e s out h
  rfl

lemma npSub_self (A : List (List ℚ)) :
    npSub A A = some (List.replicate (npRows A) (List.replicate (npCols A) (0 : ℚ))) := by
  unfold npSub
  rw [if_pos ⟨Or.inl rfl, Or.inl rfl⟩]
  simp [max_self]

lemma npMean_zero_matrix (r c : Nat) :
    npMean (npSquare (List.replicate r (List.replicate c (0 : ℚ)))) = 0 := by
  simp [npMean, npSquare, List.map_replicate, List.sum_replicate]

lemma mseValue_eq_zero (self : MSEEvaluator) (m : EncModel)
    (h : self.targetEmbeddings m = self.source_embeddings) :
    self.mseValue m = some 0 := by
  unfold MSEEvaluator.mseValue
  rw [h, npSub_self]
  simp [npMean_zero_matrix]

lemma npMean_npSquare_nonneg (D : List (List ℚ)) : 0 ≤ npMean (npSquare D) := by
  unfold npMean
  apply div_nonneg
  · apply List.sum_nonneg
    intro x hx
    simp only [npSquare, List.map_map, List.mem_map, Function.comp_def] at hx
    obtain ⟨row, _, rfl⟩ := hx
    apply List.sum_nonneg
    intro y hy
    simp only [List.mem_map] at hy
    obtain ⟨z, _, rfl⟩ := hy
    positivity
  · positivity

lemma mseValue_nonneg (self : MSEEvaluator) (m : EncModel) (mse : ℚ)
    (h : self.mseValue m = some mse) : 0 ≤ mse := by
  unfold MSEEvaluator.mseValue at h
  rcases hsub : npSub self.source_embeddings (self.targetEmbeddings m) with _ | D
  · rw [hsub] at h; cases h
  · rw [hsub, Option.map_some'] at h
    rw [← Option.some.inj h]
    have := npMean_npSquare_nonneg D
    linarith

lemma prefixNameToMetrics_values (metrics : List (String × ℚ)) (name : String)
    (kv : String × ℚ) (h : kv ∈ prefixNameToMetrics metrics name) :
    ∃ kv' ∈ metrics, kv.2 = kv'.2 := by
  unfold prefixNameToMetrics at h
  split at h
  · exact ⟨kv, h, rfl⟩
  · simp only [List.mem_map] at h
    obtain ⟨kv', hm, rfl⟩ := h
    exact ⟨kv', hm, rfl⟩

/-- C10: the constructor's `teacher_model` parameter defaults to `None`,
yet `__init__` unconditionally calls `teacher_model.encode`, so every
construction with a `None` teacher raises before any evaluator state
exists: a valid teacher model is an unstated precondition. -/
theorem init_none_teacher_fails (source_sentences target_sentences : List String)
    (show_progress_bar : Bool) (batch_size : Nat) (name : String)
    (write_csv : Bool) (truncate_dim : Option Nat) :
    MSEEvaluator.init source_sentences target_sentences none
      show_progress_bar batch_size name write_csv truncate_dim = none := rfl

/-- C2: the source embeddings are computed exactly once, at construction,
by the teacher model, and any sequence of `__call__` invocations leaves the
evaluator state — in particular the cached source embeddings — unchanged;
each call re-encodes only the target sentences with the model passed to it. -/
theorem source_embeddings_encoded_once :
    (∀ (ss ts : List String) (t : EncModel) (spb : Bool) (bs : Nat) (nm : String)
      (wc : Bool) (td : Option Nat) (ev : MSEEvaluator),
      MSEEvaluator.init ss ts (some t) spb bs nm wc td = some ev →
      ev.source_embeddings = t.encode td ss) ∧
    (∀ (self : MSEEvaluator) (fs : FS)
      (calls : List (EncModel × Option String × Int × Int)) (res : MSEEvaluator × FS),
      runCalls (self, fs) calls = some res →
      res.1 = self ∧ res.1.source_embeddings = self.source_embeddings) := by
  constructor
  · intro ss ts t spb bs nm wc td ev h
    rw [← Option.some.inj h]
  · intro self fs calls
    induction calls generalizing self fs with
    | nil =>
      intro res h
      rw [← Option.some.inj h]
      exact ⟨rfl, rfl⟩
    | cons c rest ih =>
      intro res h
      obtain ⟨m, op, e, s⟩ := c
      rcases hc : self.call m op fs e s with _ | out
      · rw [runCalls, hc] at h; cases h
      · rw [runCalls, hc, Option.some_bind] at h
        have hstep := call_state_eq self m op fs e s out hc
        rw [hstep] at h
        exact ih self out.2.2 res h

/-- C5: when the target embeddings computed in `__call__` equal the cached
source embeddings (identical sentence lists and the same deterministic
encoder), the computed MSE is 0 and every reported metric value is 0. -/
theorem identical_embeddings_zero_mse (self : MSEEvaluator) (m : EncModel)
    (h : self.targetEmbeddings m = self.source_embeddings) :
    self.mseValue m = some 0 ∧
    ∀ (op : Option String) (fs : FS) (e s : Int) out,
      self.call m op fs e s = some out → ∀ kv ∈ out.1, kv.2 = 0 := by
  have hm := mseValue_eq_zero self m h
  refine ⟨hm, ?_⟩
  intro op fs e s out hc kv hkv
  obtain ⟨mse, hm', rfl⟩ := call_some_elim self m op fs e s out hc
  rw [hm] at hm'
  obtain ⟨kv', hkv', hval⟩ := prefixNameToMetrics_values _ _ kv hkv
  simp only [List.mem_singleton] at hkv'
  rw [hval, hkv', ← Option.some.inj hm']
  exact neg_zero

/-- C4: the computed MSE is non-negative for every pair of embedding
matrices on which the subtraction succeeds, and consequently every metric
value returned by `__call__` (the negated MSE) is non-positive. -/
theorem mse_nonneg_metric_nonpos (self : MSEEvaluator) (m : EncModel) :
    (∀ mse, self.mseValue m = some mse → 0 ≤ mse) ∧
    (∀ (op : Option String) (fs : FS) (e s : Int) out,
      self.call m op fs e s = some out → ∀ kv ∈ out.1, kv.2 ≤ 0) := by
  refine ⟨fun mse h => mseValue_nonneg self m mse h, ?_⟩
  intro op fs e s out hc kv hkv
  obtain ⟨mse, hm, rfl⟩ := call_some_elim self m op fs e s out hc
  obtain ⟨kv', hkv', hval⟩ := prefixNameToMetrics_values _ _ kv hkv
  simp only [List.mem_singleton] at hkv'
  rw [hval, hkv']
  have := mseValue_nonneg self m mse hm
  simpa using this

/-- C9: with `output_path=None` the CSV side effect is skipped entirely —
the filesystem is returned unchanged even when `write_csv` is true — and
the metric mapping equals the one a writing call (same evaluator, model,
epoch and steps) returns. -/
theorem no_output_path_no_csv_write (self : MSEEvaluator) (m : EncModel)
    (fs fs2 : FS) (e s : Int) (p : String) (out out2)
    (h1 : self.call m none fs e s = some out)
    (h2 : self.call m (some p) fs2 e s = some out2) :
    out.2.2 = fs ∧ out.1 = out2.1 := by
  obtain ⟨mse, hm, rfl⟩ := call_some_elim self m none fs e s out h1
  obtain ⟨mse2, hm2, rfl⟩ := call_some_elim self m (some p) fs2 e s out2 h2
  rw [hm] at hm2
  rw [← Option.some.inj hm2]
  exact ⟨rfl, rfl⟩

lemma npGet_eq_getD (A : List (List ℚ)) (i j : Nat) (hi : i < npRows A) (hj : j < npCols A) :
    npGet A i j = (A.getD i []).getD j 0 := by
  unfold npGet
  have h1 : (if npRows A = 1 then 0 else i) = i := by
    split
    · omega
    · rfl
  have h2 : (if npCols A = 1 then 0 else j) = j := by
    split
    · omega
    · rfl
  rw [h1, h2]

lemma npCols_eq_of_len (A B : List (List ℚ)) (hlen : B.length = A.length)
    (hB : ∀ row ∈ B, row.length = npCols A) : npCols B = npCols A := by
  cases B with
  | nil =>
    cases A with
    | nil => rfl
    | cons a as => simp at hlen
  | cons b bs => exact hB b (List.mem_cons_self b bs)

lemma npSub_rect (A B : List (List ℚ))
    (hlen : B.length = A.length)
    (hA : ∀ row ∈ A, row.length = npCols A)
    (hB : ∀ row ∈ B, row.length = npCols A) :
    npSub A B =
      some (List.zipWith (fun ra rb => List.zipWith (fun a b => a - b) ra rb) A B) := by
  have hcolsB : npCols B = npCols A := npCols_eq_of_len A B hlen hB
  unfold npSub
  rw [if_pos ⟨Or.inl hlen.symm, Or.inl hcolsB.symm⟩]
  congr 1
  have hmaxr : max (npRows A) (npRows B) = A.length := by
    simp [npRows, hlen]
  have hmaxc : max (npCols A) (npCols B) = npCols A := by
    simp [hcolsB]
  rw [hmaxr, hmaxc]
  apply List.ext_getElem
  · simp [List.length_zipWith, hlen]
  · intro i h1 h2
    simp only [List.length_map, List.length_range] at h1
    simp only [List.length_zipWith] at h2
    have hiA : i < A.length := h1
    have hiB : i < B.length := by omega
    simp only [List.getElem_map, List.getElem_range, List.getElem_zipWith]
    have hrowA : (A.getD i []).length = npCols A := by
      rw [List.getD_eq_getElem A [] hiA]
      exact hA _ (List.getElem_mem hiA)
    have hrowB : (B.getD i []).length = npCols A := by
      rw [List.getD_eq_getElem B [] hiB]
      exact hB _ (List.getElem_mem hiB)
    apply List.ext_getElem
    · simp only [List.length_map, List.length_range, List.length_zipWith]
      rw [← List.getD_eq_getElem A [] hiA, ← List.getD_eq_getElem B [] hiB, hrowA, hrowB]
      omega
    · intro j hj1 hj2
      simp only [List.length_map, List.length_range] at hj1
      simp only [List.getElem_map, List.getElem_range, List.getElem_zipWith]
      rw [npGet_eq_getD A i j hiA hj1, npGet_eq_getD B i j hiB (hcolsB ▸ hj1)]
      rw [List.getD_eq_getElem A [] hiA, List.getD_eq_getElem B [] hiB]
      have hjA : j < (A[i]).length := by
        have := hA (A[i]) (List.getElem_mem hiA); omega
      have hjB : j < (B[i]).length := by
        have := hB (B[i]) (List.getElem_mem hiB); omega
      rw [List.getD_eq_getElem (A[i]) 0 hjA, List.getD_eq_getElem (B[i]) 0 hjB]

lemma npMean_square_sub_eq (A B : List (List ℚ))
    (hlen : B.length = A.length)
    (hB : ∀ row ∈ B, row.length = npCols A) :
    npMean (npSquare
      (List.zipWith (fun ra rb => List.zipWith (fun a b => a - b) ra rb) A B)) * 100 =
      specMSE A B := by
  have hrows : npRows (npSquare
      (List.zipWith (fun ra rb => List.zipWith (fun a b => a - b) ra rb) A B)) = A.length := by
    simp [npRows, npSquare, List.length_zipWith, hlen]
  have hcols : npCols (npSquare
      (List.zipWith (fun ra rb => List.zipWith (fun a b => a - b) ra rb) A B)) =
      (A.head?.getD []).length := by
    cases A with
    | nil => rfl
    | cons a as =>
      cases B with
      | nil => simp at hlen
      | cons b bs =>
        have hb : b.length = npCols (a :: as) := hB b (List.mem_cons_self b bs)
        simp only [List.zipWith_cons_cons, npSquare, npCols, List.map_cons, List.head?_cons,
          Option.getD_some, List.length_map, List.length_zipWith]
        have : npCols (a :: as) = a.length := rfl
        omega
  have hnum : (npSquare
      (List.zipWith (fun ra rb => List.zipWith (fun a b => a - b) ra rb) A B)).map List.sum =
      (A.zip B).map (fun rp => ((rp.1.zip rp.2).map (fun q => (q.1 - q.2) ^ 2)).sum) := by
    simp only [npSquare, List.map_map, List.zip_eq_zipWith, List.map_zipWith, Function.comp_def]
  unfold npMean specMSE
  rw [hrows, hcols, hnum]
  ring

/-- C1: every successful `__call__` returns the mapping with the single key
`negative_mse` — prefixed with the evaluator's configured name when that
name is non-empty — whose value is the negation of
`100 * mean((source_embeddings - target_embeddings)^2)`, stated via the
independent element-wise formula `specMSE`. -/
theorem call_metric_is_negated_specMSE (self : MSEEvaluator) (m : EncModel)
    (op : Option String) (fs : FS) (e s : Int) (out)
    (hlen : (self.targetEmbeddings m).length = self.source_embeddings.length)
    (hA : ∀ row ∈ self.source_embeddings, row.length = npCols self.source_embeddings)
    (hB : ∀ row ∈ self.targetEmbeddings m, row.length = npCols self.source_embeddings)
    (hc : self.call m op fs e s = some out) :
    out.1 = [((if self.name = "" then "negative_mse" else self.name ++ "_" ++ "negative_mse"),
      -(specMSE self.source_embeddings (self.targetEmbeddings m)))] := by
  obtain ⟨mse, hm, rfl⟩ := call_some_elim self m op fs e s out hc
  unfold MSEEvaluator.mseValue at hm
  rw [npSub_rect _ _ hlen hA hB, Option.map_some'] at hm
  have hval := npMean_square_sub_eq self.source_embeddings (self.targetEmbeddings m) hlen hB
  have hmse : mse = specMSE self.source_embeddings (self.targetEmbeddings m) := by
    rw [← Option.some.inj hm, hval]
  subst hmse
  by_cases h : self.name = "" <;> simp [prefixNameToMetrics, h]

lemma writeCsvStep_lookup (self : MSEEvaluator) (p : String) (fs : FS) (e s : Int) (mse : ℚ)
    (hw : self.write_csv = true) :
    List.lookup (os_path_join p self.csv_file) (self.writeCsvStep (some p) fs e s mse) =
      some ((match List.lookup (os_path_join p self.csv_file) fs with
        | none => [self.csv_headers.map Cell.str]
        | some content => content) ++ [[Cell.int e, Cell.int s, Cell.num mse]]) := by
  simp only [MSEEvaluator.writeCsvStep, hw, if_true]
  rcases hl : List.lookup (os_path_join p self.csv_file) fs with _ | content <;>
    simp [hl, List.lookup]

/-- C3: CSV logging goes to `<output_path>/mse_evaluation_<name>_results.csv`;
when the file does not yet exist it is created with the header row
`epoch,steps,MSE` written first, an existing file is appended to with no
second header, and each invocation appends exactly one data row
`[epoch, steps, mse]`. -/
theorem csv_file_layout (ss ts : List String) (t : EncModel) (spb : Bool) (bs : Nat)
    (nm : String) (td : Option Nat) (ev : MSEEvaluator) (m : EncModel) (p : String)
    (fs : FS) (e s : Int) (out) (mse : ℚ)
    (hinit : MSEEvaluator.init ss ts (some t) spb bs nm true td = some ev)
    (hm : ev.mseValue m = some mse)
    (hc : ev.call m (some p) fs e s = some out) :
    List.lookup (p ++ "/" ++ ("mse_evaluation_" ++ nm ++ "_results.csv")) out.2.2 =
      some ((match List.lookup (p ++ "/" ++ ("mse_evaluation_" ++ nm ++ "_results.csv")) fs with
        | none => [[Cell.str "epoch", Cell.str "steps", Cell.str "MSE"]]
        | some content => content) ++ [[Cell.int e, Cell.int s, Cell.num mse]]) := by
  have hev := Option.some.inj hinit
  have hwc : ev.write_csv = true := by rw [← hev]
  have hfile : ev.csv_file = "mse_evaluation_" ++ nm ++ "_results.csv" := by rw [← hev]
  have hhdr : ev.csv_headers = ["epoch", "steps", "MSE"] := by rw [← hev]
  obtain ⟨mse', hm', rfl⟩ := call_some_elim ev m (some p) fs e s out hc
  rw [hm] at hm'
  obtain rfl := Option.some.inj hm'
  have hstep := writeCsvStep_lookup ev p fs e s mse hwc
  simp only [os_path_join, hfile, hhdr] at hstep
  simpa using hstep

/-- C6: starting from no existing CSV file, invoking the evaluator twice
with `write_csv=True` and the same output path leaves the file containing
exactly one header row followed by exactly two data rows. -/
theorem two_runs_one_header_two_rows (ss ts : List String) (t : EncModel) (spb : Bool)
    (bs : Nat) (nm : String) (td : Option Nat) (ev : MSEEvaluator) (m1 m2 : EncModel)
    (p : String) (fs : FS) (e1 s1 e2 s2 : Int) (out1 out2) (mse1 mse2 : ℚ)
    (hinit : MSEEvaluator.init ss ts (some t) spb bs nm true td = some ev)
    (h0 : List.lookup (p ++ "/" ++ ("mse_evaluation_" ++ nm ++ "_results.csv")) fs = none)
    (hm1 : ev.mseValue m1 = some mse1)
    (hc1 : ev.call m1 (some p) fs e1 s1 = some out1)
    (hm2 : out1.2.1.mseValue m2 = some mse2)
    (hc2 : out1.2.1.call m2 (some p) out1.2.2 e2 s2 = some out2) :
    List.lookup (p ++ "/" ++ ("mse_evaluation_" ++ nm ++ "_results.csv")) out2.2.2 =
      some [[Cell.str "epoch", Cell.str "steps", Cell.str "MSE"],
        [Cell.int e1, Cell.int s1, Cell.num mse1],
        [Cell.int e2, Cell.int s2, Cell.num mse2]] := by
  have hev := Option.some.inj hinit
  have hwc : ev.write_csv = true := by rw [← hev]
  have hfile : ev.csv_file = "mse_evaluation_" ++ nm ++ "_results.csv" := by rw [← hev]
  have hhdr : ev.csv_headers = ["epoch", "steps", "MSE"] := by rw [← hev]
  obtain ⟨mse1', hm1', rfl⟩ := call_some_elim ev m1 (some p) fs e1 s1 out1 hc1
  rw [hm1] at hm1'
  obtain rfl := Option.some.inj hm1'
  obtain ⟨mse2', hm2', rfl⟩ := call_some_elim ev m2 (some p) _ e2 s2 out2 hc2
  rw [hm2] at hm2'
  obtain rfl := Option.some.inj hm2'
  have hstep1 := writeCsvStep_lookup ev p fs e1 s1 mse1 hwc
  have hstep2 := writeCsvStep_lookup ev p (ev.writeCsvStep (some p) fs e1 s1 mse1) e2 s2 mse2 hwc
  simp only [os_path_join, hfile, hhdr] at hstep1 hstep2
  rw [h0] at hstep1
  rw [hstep1] at hstep2
  simpa [os_path_join, hfile, hhdr] using hstep2

/-- C7: a configured truncation dimension `d` is applied to both encoders:
the teacher encodes the source sentences at construction inside the
truncate-to-`d` context, and every `__call__` encodes the target sentences
inside the same context, so (by the encoders' width contract) both matrices
have width `d` before the element-wise comparison. -/
theorem truncate_dim_applied_to_both (ss ts : List String) (t m : EncModel) (d : Nat)
    (spb : Bool) (bs : Nat) (nm : String) (wc : Bool) (ev : MSEEvaluator)
    (hinit : MSEEvaluator.init ss ts (some t) spb bs nm wc (some d) = some ev)
    (ht : ∀ row ∈ t.encode (some d) ss, row.length = d)
    (hm : ∀ row ∈ m.encode (some d) ts, row.length = d) :
    ev.truncate_dim = some d ∧
    ev.source_embeddings = t.encode (some d) ss ∧
    (∀ row ∈ ev.source_embeddings, row.length = d) ∧
    ev.targetEmbeddings m = m.encode (some d) ts ∧
    (∀ row ∈ ev.targetEmbeddings m, row.length = d) := by
  have hev := (Option.some.inj hinit).symm
  subst hev
  exact ⟨rfl, rfl, ht, rfl, hm⟩

/-- C8 (amended): `__call__` performs no error handling itself; it
propagates the numeric library's shape-mismatch error exactly when the two
embedding matrices' shapes are not broadcast-compatible, i.e. when the row
counts differ with neither equal to 1, or the widths differ with neither
equal to 1. -/
theorem call_fails_on_incompatible_shapes (self : MSEEvaluator) (m : EncModel)
    (op : Option String) (fs : FS) (e s : Int)
    (h : ¬ broadcastCompat (npRows self.source_embeddings)
        (npRows (self.targetEmbeddings m)) ∨
      ¬ broadcastCompat (npCols self.source_embeddings)
        (npCols (self.targetEmbeddings m))) :
    self.call m op fs e s = none := by
  have hsub : npSub self.source_embeddings (self.targetEmbeddings m) = none := by
    unfold npSub
    rw [if_neg]
    tauto
  rw [MSEEvaluator.call, MSEEvaluator.mseValue, hsub]
  rfl

/-- A teacher model embedding every sentence as `[1, 2]`. -/
def exTeacher : EncModel := ⟨fun _ ss => ss.map (fun _ => [1, 2])⟩

/-- A student model embedding every sentence as `[0, 0]`. -/
def exZeroModel : EncModel := ⟨fun _ ts => ts.map (fun _ => [0, 0])⟩

/-- C8 (counterexample): one source sentence against two target sentences —
mismatched sentence counts — does NOT fail: numpy broadcasts the 1-row
source matrix across the 2-row target matrix and `__call__` succeeds,
returning `{"negative_mse": -250}`. -/
theorem mismatched_counts_no_error :
    ((MSEEvaluator.init ["a"] ["x", "y"] (some exTeacher) false 32 "" true none).bind
      (fun ev => (ev.call exZeroModel (some "out") [] (-1) (-1)).map (fun out => out.1))) =
      some [("negative_mse", -250)] := by
  simp [MSEEvaluator.init, MSEEvaluator.call, MSEEvaluator.mseValue,
    MSEEvaluator.targetEmbeddings, npSub, npGet, npRows, npCols, npSquare, npMean,
    exTeacher, exZeroModel, broadcastCompat, prefixNameToMetrics, List.range_succ,
    MSEEvaluator.writeCsvStep]
  norm_num

/-- A concrete evaluator state: two cached source embeddings of width 2,
two target sentences, name "ev". -/
def exEval : MSEEvaluator :=
  { source_embeddings := [[1, 2], [3, 4]]
    target_sentences := ["x", "y"]
    show_progress_bar := false
    batch_size := 32
    name := "ev"
    csv_file := "mse_evaluation_" ++ "ev" ++ "_results.csv"
    csv_headers := ["epoch", "steps", "MSE"]
    write_csv := true
    truncate_dim := none
    primary_metric := "negative_mse" }

/-- Like `exEval` but with three target sentences, so the target matrix has
three rows against two cached source rows. -/
def exEval3 : MSEEvaluator :=
  { source_embeddings := [[1, 2], [3, 4]]
    target_sentences := ["x", "y", "z"]
    show_progress_bar := false
    batch_size := 32
    name := "ev"
    csv_file := "mse_evaluation_" ++ "ev" ++ "_results.csv"
    csv_headers := ["epoch", "steps", "MSE"]
    write_csv := true
    truncate_dim := none
    primary_metric := "negative_mse" }

/-- A model that returns exactly `exEval`'s cached source embeddings. -/
def exIdModel : EncModel := ⟨fun _ _ => [[1, 2], [3, 4]]⟩

/-- A model that honours the truncation dimension: each embedding has
exactly the requested width. -/
def exTruncModel : EncModel :=
  ⟨fun td ss => ss.map (fun _ => List.replicate (td.getD 0) (0 : ℚ))⟩

/-- The evaluator `MSEEvaluator.init` builds from `exTruncModel` with
truncation dimension 2. -/
def exTruncEval : MSEEvaluator :=
  { source_embeddings := exTruncModel.encode (some 2) ["a"]
    target_sentences := ["b", "c"]
    show_progress_bar := false
    batch_size := 32
    name := ""
    csv_file := "mse_evaluation_" ++ "" ++ "_results.csv"
    csv_headers := ["epoch", "steps", "MSE"]
    write_csv := true
    truncate_dim := some 2
    primary_metric := "negative_mse" }

/-- The evaluator `MSEEvaluator.init` builds from `exTeacher` with one
source sentence and name "n". -/
def csvEval : MSEEvaluator :=
  { source_embeddings := exTeacher.encode none ["a"]
    target_sentences := ["b"]
    show_progress_bar := false
    batch_size := 32
    name := "n"
    csv_file := "mse_evaluation_" ++ "n" ++ "_results.csv"
    csv_headers := ["epoch", "steps", "MSE"]
    write_csv := true
    truncate_dim := none
    primary_metric := "negative_mse" }

theorem call_metric_is_negated_specMSE_witness :
    (prefixNameToMetrics [("negative_mse", -750)] "ev", exEval,
      exEval.writeCsvStep (some "o") [] (-1) (-1) 750).1 =
      [((if exEval.name = "" then "negative_mse" else exEval.name ++ "_" ++ "negative_mse"),
        -(specMSE exEval.source_embeddings (exEval.targetEmbeddings exZeroModel)))] :=
  call_metric_is_negated_specMSE exEval exZeroModel (some "o") [] (-1) (-1) _
    (by decide) (by decide) (by decide)
    (by norm_num [MSEEvaluator.call, MSEEvaluator.mseValue, MSEEvaluator.targetEmbeddings,
      npSub, npGet, npRows, npCols, npSquare, npMean, exEval, exZeroModel, broadcastCompat,
      List.range_succ, List.replicate_succ])

theorem source_embeddings_encoded_once_witness :
    (exEval, ([] : FS)).1 = exEval ∧
      (exEval, ([] : FS)).1.source_embeddings = exEval.source_embeddings :=
  source_embeddings_encoded_once.2 exEval [] [(exZeroModel, none, -1, -1)] (exEval, [])
    (by norm_num [runCalls, MSEEvaluator.call, MSEEvaluator.mseValue,
      MSEEvaluator.targetEmbeddings, npSub, npGet, npRows, npCols, npSquare, npMean,
      exEval, exZeroModel, broadcastCompat, List.range_succ, List.replicate_succ,
      MSEEvaluator.writeCsvStep])

theorem csv_file_layout_witness :
    List.lookup ("o" ++ "/" ++ ("mse_evaluation_" ++ "n" ++ "_results.csv"))
      ((prefixNameToMetrics [("negative_mse", -250)] "n", csvEval,
        csvEval.writeCsvStep (some "o") [] 0 5 250) :
          List (String × ℚ) × MSEEvaluator × FS).2.2 =
      some ((match List.lookup ("o" ++ "/" ++ ("mse_evaluation_" ++ "n" ++ "_results.csv"))
          ([] : FS) with
        | none => [[Cell.str "epoch", Cell.str "steps", Cell.str "MSE"]]
        | some content => content) ++ [[Cell.int 0, Cell.int 5, Cell.num 250]]) :=
  csv_file_layout ["a"] ["b"] exTeacher false 32 "n" none csvEval exZeroModel "o" [] 0 5 _ 250
    rfl
    (by norm_num [MSEEvaluator.mseValue, MSEEvaluator.targetEmbeddings, npSub, npGet,
      npRows, npCols, npSquare, npMean, csvEval, exTeacher, exZeroModel, broadcastCompat,
      List.range_succ, List.replicate_succ])
    (by norm_num [MSEEvaluator.call, MSEEvaluator.mseValue, MSEEvaluator.targetEmbeddings,
      npSub, npGet, npRows, npCols, npSquare, npMean, csvEval, exTeacher, exZeroModel,
      broadcastCompat, List.range_succ, List.replicate_succ])

theorem mse_nonneg_metric_nonpos_witness :
    (0 : ℚ) ≤ 750 ∧ (("ev" ++ "_" ++ "negative_mse", (-750 : ℚ))).2 ≤ 0 :=
  ⟨(mse_nonneg_metric_nonpos exEval exZeroModel).1 750
      (by norm_num [MSEEvaluator.mseValue, MSEEvaluator.targetEmbeddings, npSub, npGet,
        npRows, npCols, npSquare, npMean, exEval, exZeroModel, broadcastCompat,
        List.range_succ, List.replicate_succ]),
   (mse_nonneg_metric_nonpos exEval exZeroModel).2 (some "o") [] (-1) (-1)
      (prefixNameToMetrics [("negative_mse", -750)] "ev", exEval,
        exEval.writeCsvStep (some "o") [] (-1) (-1) 750)
      (by norm_num [MSEEvaluator.call, MSEEvaluator.mseValue, MSEEvaluator.targetEmbeddings,
        npSub, npGet, npRows, npCols, npSquare, npMean, exEval, exZeroModel, broadcastCompat,
        List.range_succ, List.replicate_succ])
      ("ev" ++ "_" ++ "negative_mse", -750) (by simp [prefixNameToMetrics])⟩

theorem identical_embeddings_zero_mse_witness :
    exEval.mseValue exIdModel = some 0 :=
  (identical_embeddings_zero_mse exEval exIdModel rfl).1

theorem two_runs_one_header_two_rows_witness :
    List.lookup ("o" ++ "/" ++ ("mse_evaluation_" ++ "n" ++ "_results.csv"))
      ((prefixNameToMetrics [("negative_mse", -250)] "n", csvEval,
        csvEval.writeCsvStep (some "o")
          (csvEval.writeCsvStep (some "o") [] 0 5 250) 1 5 250) :
          List (String × ℚ) × MSEEvaluator × FS).2.2 =
      some [[Cell.str "epoch", Cell.str "steps", Cell.str "MSE"],
        [Cell.int 0, Cell.int 5, Cell.num 250],
        [Cell.int 1, Cell.int 5, Cell.num 250]] :=
  two_runs_one_header_two_rows ["a"] ["b"] exTeacher false 32 "n" none csvEval
    exZeroModel exZeroModel "o" [] 0 5 1 5
    (prefixNameToMetrics [("negative_mse", -250)] "n", csvEval,
      csvEval.writeCsvStep (some "o") [] 0 5 250) _ 250 250
    rfl rfl
    (by norm_num [MSEEvaluator.mseValue, MSEEvaluator.targetEmbeddings, npSub, npGet,
      npRows, npCols, npSquare, npMean, csvEval, exTeacher, exZeroModel, broadcastCompat,
      List.range_succ, List.replicate_succ])
    (by norm_num [MSEEvaluator.call, MSEEvaluator.mseValue, MSEEvaluator.targetEmbeddings,
      npSub, npGet, npRows, npCols, npSquare, npMean, csvEval, exTeacher, exZeroModel,
      broadcastCompat, List.range_succ, List.replicate_succ])
    (by norm_num [MSEEvaluator.mseValue, MSEEvaluator.targetEmbeddings, npSub, npGet,
      npRows, npCols, npSquare, npMean, csvEval, exTeacher, exZeroModel, broadcastCompat,
      List.range_succ, List.replicate_succ])
    (by norm_num [MSEEvaluator.call, MSEEvaluator.mseValue, MSEEvaluator.targetEmbeddings,
      npSub, npGet, npRows, npCols, npSquare, npMean, csvEval, exTeacher, exZeroModel,
      broadcastCompat, List.range_succ, List.replicate_succ])

theorem truncate_dim_applied_to_both_witness :
    exTruncEval.truncate_dim = some 2 ∧
    exTruncEval.targetEmbeddings exTruncModel = exTruncModel.encode (some 2) ["b", "c"] :=
  ⟨(truncate_dim_applied_to_both ["a"] ["b", "c"] exTruncModel exTruncModel 2 false 32 "" true
      exTruncEval rfl (by decide) (by decide)).1,
   (truncate_dim_applied_to_both ["a"] ["b", "c"] exTruncModel exTruncModel 2 false 32 "" true
      exTruncEval rfl (by decide) (by decide)).2.2.2.1⟩

theorem call_fails_on_incompatible_shapes_witness :
    exEval3.call exZeroModel (some "o") [] (-1) (-1) = none :=
  call_fails_on_incompatible_shapes exEval3 exZeroModel (some "o") [] (-1) (-1)
    (Or.inl (by decide))

theorem no_output_path_no_csv_write_witness :
    (prefixNameToMetrics [("negative_mse", -750)] "ev", exEval, ([] : FS)).2.2 = ([] : FS) ∧
    (prefixNameToMetrics [("negative_mse", -750)] "ev", exEval, ([] : FS)).1 =
      (prefixNameToMetrics [("negative_mse", -750)] "ev", exEval,
        exEval.writeCsvStep (some "o") [] (-1) (-1) 750).1 :=
  no_output_path_no_csv_write exEval exZeroModel [] [] (-1) (-1) "o" _ _
    (by norm_num [MSEEvaluator.call, MSEEvaluator.mseValue, MSEEvaluator.targetEmbeddings,
      npSub, npGet, npRows, npCols, npSquare, npMean, exEval, exZeroModel, broadcastCompat,
      List.range_succ, List.replicate_succ, MSEEvaluator.writeCsvStep])
    (by norm_num [MSEEvaluator.call, MSEEvaluator.mseValue, MSEEvaluator.targetEmbeddings,
      npSub, npGet, npRows, npCols, npSquare, npMean, exEval, exZeroModel, broadcastCompat,
      List.range_succ, List.replicate_succ])
